import Mathlib

/-!
Shallow embedding of `src/module.ts` of the nuxt-prisma repository: the
Prisma ORM setup pipeline run by the Nuxt module's `setup` function.

The TypeScript code is a linear sequence of `async` step functions, each
gated by a boolean module option, each invoking external commands
(`execa`/`spawn`), interactive confirmation prompts and file-system
operations, with `try`/`catch` at step boundaries.  We embed it as a
state-passing function over an abstract file-system record, producing a
trace of observable events (external command invocations, prompts, log
messages, file writes, devtools-tab registration) together with an
`Except`-style result that models a JavaScript exception escaping the
computation.  Outcomes of external commands and answers to prompts are
supplied by an environment oracle, so every theorem quantifies over all
possible command failures and user answers.
-/

namespace NuxtPrisma


/-- External commands the module invokes through `execa`/`spawn`. -/
inductive Cmd
  /-- `execa("prisma", ["version"])` — CLI detection. -/
  | prismaVersion
  /-- `execa("npm", ["install", "prisma", "--save-dev"])`. -/
  | npmInstallPrismaDev
  /-- `execa("npx", ["prisma", "init", "--datasource-provider", "sqlite"])`. -/
  | prismaInit
  /-- `execa("npx", ["prisma", "format"])`. -/
  | prismaFormat
  /-- `execa("npx", ["prisma", "migrate", "dev", "--name", "init"])`. -/
  | prismaMigrateDev
  /-- `execa("npm", ["install", "@prisma/client"])`. -/
  | npmInstallClient
  /-- `execa("npx", ["prisma", "generate"])`. -/
  | prismaGenerate
  /-- `spawn("npx", ["prisma", "studio", "--browser", "none"])`. -/
  | prismaStudio
deriving DecidableEq, Repr

/-- Names of the interactive confirmation prompts (the `name:` field passed
to the `prompts` library). -/
inductive PromptName
  | installPrisma
  | initPrisma
  | runMigration
  | generateClient
  | installStudio
deriving DecidableEq, Repr

/-- The devtools tab pushed on the `devtools:customTabs` hook. -/
structure DevtoolsTab where
  name : String
  title : String
  icon : String
  category : String
  viewType : String
  src : String
  persistent : Bool
deriving DecidableEq, Repr

/-- Observable events of a pipeline run, in order of occurrence. -/
inductive Event
  /-- An external command was invoked (it may succeed or fail). -/
  | cmd (c : Cmd)
  /-- An interactive confirmation prompt was shown to the user. -/
  | prompt (p : PromptName)
  /-- `success(message)` — green console output. -/
  | logSuccess (m : String)
  /-- `error(message)` — red console output. -/
  | logError (m : String)
  /-- `console.log(message)` with a string literal. -/
  | logInfo (m : String)
  /-- `console.log(stdout)` of a command. -/
  | logStdout (c : Cmd)
  /-- `error(e)` — a caught exception object printed with `error`. -/
  | logException
  /-- `fs.writeFileSync(path, content)`. -/
  | writeFile (path : String) (content : String)
  /-- `fs.mkdirSync(path)`. -/
  | mkdir (path : String)
  /-- The devtools tab registered on the `devtools:customTabs` hook. -/
  | registerTab (tab : DevtoolsTab)
deriving DecidableEq, Repr

/-- The boolean module options (defaults in the source enable every step
and disable `skipInstallations`/`autoSetupPrisma`).  `datasourceUrl`,
`log` and `errorFormat` only flow into the runtime config and are not
part of the pipeline, so they are omitted. -/
structure ModuleOptions where
  installCli : Bool
  initPrisma : Bool
  writeToSchema : Bool
  formatSchema : Bool
  runMigration : Bool
  installClient : Bool
  generateClient : Bool
  installStudio : Bool
  skipInstallations : Bool
  autoSetupPrisma : Bool
deriving DecidableEq, Repr

/-- The abstract file-system state: the two files the pipeline reads or
writes, plus the `lib` directory. -/
structure FS where
  /-- `fs.existsSync(resolveProject("prisma", "schema.prisma"))`. -/
  schemaExists : Bool
  /-- Contents of `prisma/schema.prisma`; `none` means
  `fs.readFileSync` throws on it. -/
  schemaContent : Option String
  /-- `fs.existsSync(resolveProject("lib", "prisma.ts"))`. -/
  libPrismaExists : Bool
  /-- Contents of `lib/prisma.ts`. -/
  libPrismaContent : String
  /-- `fs.existsSync("lib")`. -/
  libDirExists : Bool
deriving DecidableEq, Repr

/-- The environment oracle: which external commands fail, how the user
answers each prompt, and the process environment read at module load. -/
structure Env where
  /-- Whether a given external command invocation throws. -/
  cmdFails : Cmd → Bool
  /-- The user's answer to each confirmation prompt. -/
  promptAnswer : PromptName → Bool
  /-- `import.meta.env.npm_lifecycle_event`. -/
  npmLifecycleEvent : String
  /-- Truthiness of `import.meta.env.SKIP_PRISMA_SETUP ?? false`. -/
  skipPrismaSetupEnv : Bool

/-- Result of running a pipeline fragment: the final file system, the
events emitted (in order), and either a value or an escaped exception. -/
structure Outcome (α : Type) where
  fs : FS
  events : List Event
  result : Except Unit α
deriving Repr

/-- The effect monad of the embedding: state over `FS`, an event trace,
and JavaScript-style exceptions. -/
def M (α : Type) : Type :=
  FS → Outcome α

def M.pure {α : Type} (a : α) : M α :=
  fun s => ⟨s, [], Except.ok a⟩

def M.bind {α β : Type} (x : M α) (f : α → M β) : M β :=
  fun s =>
    match x s with
    | ⟨s₁, ev₁, Except.error e⟩ => ⟨s₁, ev₁, Except.error e⟩
    | ⟨s₁, ev₁, Except.ok a⟩ =>
      match f a s₁ with
      | ⟨s₂, ev₂, r⟩ => ⟨s₂, ev₁ ++ ev₂, r⟩

instance : Monad M where
  pure := M.pure
  bind := M.bind

/-- JavaScript `try { x } catch { handler }`: state changes and events
that happened before the throw persist. -/
def M.tryCatch {α : Type} (x : M α) (handler : M α) : M α :=
  fun s =>
    match x s with
    | ⟨s₁, ev₁, Except.ok a⟩ => ⟨s₁, ev₁, Except.ok a⟩
    | ⟨s₁, ev₁, Except.error _⟩ =>
      match handler s₁ with
      | ⟨s₂, ev₂, r⟩ => ⟨s₂, ev₁ ++ ev₂, r⟩

def emit (e : Event) : M Unit :=
  fun s => ⟨s, [e], Except.ok ()⟩

/-- An `execa`/`spawn` invocation: the command is recorded in the trace,
and the call throws exactly when the environment says it fails. -/
def runCmd (env : Env) (c : Cmd) : M Unit :=
  fun s => ⟨s, [Event.cmd c], if env.cmdFails c then Except.error () else Except.ok ()⟩

/-- `fs.readFileSync(prismaSchemaPath, "utf-8")`: throws when the file is
unreadable. -/
def readSchemaFile : M String :=
  fun s =>
    match s.schemaContent with
    | some c => ⟨s, [], Except.ok c⟩
    | none => ⟨s, [], Except.error ()⟩

/-- `fs.writeFileSync(prismaSchemaPath, content)`. -/
def writeSchemaFile (content : String) : M Unit :=
  fun s =>
    ⟨{ s with schemaExists := true, schemaContent := some content },
     [Event.writeFile "prisma/schema.prisma" content], Except.ok ()⟩

def existsSchemaFile : M Bool :=
  fun s => ⟨s, [], Except.ok s.schemaExists⟩

def existsLibPrisma : M Bool :=
  fun s => ⟨s, [], Except.ok s.libPrismaExists⟩

def existsLibDir : M Bool :=
  fun s => ⟨s, [], Except.ok s.libDirExists⟩

/-- `fs.mkdirSync("lib")`. -/
def mkdirLib : M Unit :=
  fun s => ⟨{ s with libDirExists := true }, [Event.mkdir "lib"], Except.ok ()⟩

/-- `fs.writeFileSync("lib/prisma.ts", content)`. -/
def writeLibPrisma (content : String) : M Unit :=
  fun s =>
    ⟨{ s with libPrismaExists := true, libPrismaContent := content },
     [Event.writeFile "lib/prisma.ts" content], Except.ok ()⟩

/-- `await prompts({ type: "confirm", name: p, ... })`: records the prompt
and returns the user's answer. -/
def askPrompt (env : Env) (p : PromptName) : M Bool :=
  fun s => ⟨s, [Event.prompt p], Except.ok (env.promptAnswer p)⟩

/-- `success(message)` of the source (green check-mark console line). -/
def success (m : String) : M Unit :=
  emit (Event.logSuccess m)

/-- `error(message)` of the source (red cross console line). -/
def error (m : String) : M Unit :=
  emit (Event.logError m)

/-- A bare `console.log` with a string literal. -/
def consoleLog (m : String) : M Unit :=
  emit (Event.logInfo m)

/-! String literals of the source.  Braces and apostrophes of the
TypeScript text are written with `\x7b`, `\x7d` and `\x27` escapes,
backticks with `\x60`; the characters are identical to the source. -/

/-- The fixed model fragment (`addModel`) appended to the schema file. -/
def addModel : String :=
  "\n            model User \x7b\n              id    Int     @id @default(autoincrement())\n              email String  @unique\n              name  String?\n              posts Post[]\n            \x7d\n\n            model Post \x7b\n              id        Int     @id @default(autoincrement())\n              title     String\n              content   String?\n              published Boolean @default(false)\n              author    User    @relation(fields: [authorId], references: [id])\n              authorId  Int\n            \x7d\n          "

/-- The singleton Prisma client accessor template (`prismaClient`) written
to `lib/prisma.ts`. -/
def prismaClientFileContent : String :=
  "import \x7b PrismaClient \x7d from \"@prisma/client\"\nconst globalForPrisma = global as unknown as \x7b prisma: PrismaClient \x7d\n\nexport const prisma = globalForPrisma.prisma || new PrismaClient()\n\nif (process.env.NODE_ENV !== \x27production\x27) globalForPrisma.prisma = prisma\n\nexport default prisma\n    "

/-- The advice printed when the schema file already exists. -/
def schemaExistsAdvice : String :=
  "Please make sure to: \n 1. Set the DATABASE_URL in the \x60.env\x60 file to point to your existing database. If your database has no tables yet, read https://pris.ly/d/getting-started\n        \n 2. Set the provider of the datasource block in \x60schema.prisma\x60 to match your database: postgresql, mysql, sqlite, sqlserver, mongodb, or cockroachdb.\n        \n 3. Run prisma db pull to turn your database schema into a Prisma schema."

/-- The success message of `installStudio`. -/
def studioInstalledMsg : String :=
  "Prisma Studio installed. After clicking \x27Get Started\x27 in Nuxt DevTools,\n  click on the three dots in the lower left-hand side to reveal additional tabs.\n  Locate the Prisma logo to open Prisma Studio."

/-- The devtools tab pushed by `promptInstallStudio`. -/
def prismaStudioTab : DevtoolsTab :=
  { name := "nuxt-prisma"
    title := "Prisma Studio"
    icon := "simple-icons:prisma"
    category := "server"
    viewType := "iframe"
    src := "http://localhost:5555/"
    persistent := true }

/-! The step functions, translated one-to-one from `src/module.ts`. -/

/-- `detectCli`: `await execa("prisma", ["version"], ...)` — no internal
`try`, so a failure escapes to the caller. -/
def detectCli (env : Env) : M Unit :=
  runCmd env Cmd.prismaVersion

/-- `installCli`: gated on `options.installCli`; catches and logs its own
failure. -/
def installCli (options : ModuleOptions) (env : Env) : M Unit :=
  if options.installCli then
    M.tryCatch (runCmd env Cmd.npmInstallPrismaDev)
      (error "Failed to install Prisma CLI.")
  else
    M.pure ()

/-- `initPrisma`: gated on `options.initPrisma`; on success prints the
command stdout; catches and logs failure. -/
def initPrisma (options : ModuleOptions) (env : Env) : M Unit :=
  if options.initPrisma then
    M.tryCatch
      (M.bind (runCmd env Cmd.prismaInit) fun _ =>
        emit (Event.logStdout Cmd.prismaInit))
      (error "Failed to initialize Prisma project.")
  else
    M.pure ()

/-- `writeToSchema`: gated on `options.writeToSchema`.  Reads the existing
schema (falling back to the empty string, with an error log, when the read
throws), then writes the trimmed existing content, a blank-line separator
and the fixed model fragment. -/
def writeToSchema (options : ModuleOptions) (env : Env) : M Unit :=
  if options.writeToSchema then
    M.tryCatch
      (M.bind
        (M.tryCatch readSchemaFile
          (M.bind (error "Error reading existing schema file") fun _ =>
            M.pure ""))
        fun existingSchema =>
          writeSchemaFile (existingSchema.trim ++ "\n\n" ++ addModel))
      (error "Failed to write model to Prisma schema.")
  else
    M.pure ()

/-- `formatSchema`: gated on `options.formatSchema`. -/
def formatSchema (options : ModuleOptions) (env : Env) : M Unit :=
  if options.formatSchema then
    M.tryCatch (runCmd env Cmd.prismaFormat)
      (error "Failed to format Prisma schema file.")
  else
    M.pure ()

/-- `runMigration`: gated on `options.runMigration`. -/
def runMigration (options : ModuleOptions) (env : Env) : M Unit :=
  if options.runMigration then
    M.tryCatch
      (M.bind (runCmd env Cmd.prismaMigrateDev) fun _ =>
        success "Created User and Post tables in your SQLite database.")
      (error "Failed to run Prisma migration.")
  else
    M.pure ()

/-- `generateClient`: gated on the conjunction
`options.installClient && options.generateClient`; installs
`@prisma/client` then runs `prisma generate` and prints its stdout. -/
def generateClient (options : ModuleOptions) (env : Env) : M Unit :=
  if options.installClient && options.generateClient then
    M.tryCatch
      (M.bind (runCmd env Cmd.npmInstallClient) fun _ =>
        M.bind (runCmd env Cmd.prismaGenerate) fun _ =>
          emit (Event.logStdout Cmd.prismaGenerate))
      (error "Failed to generate Prisma Client.")
  else
    M.pure ()

/-- `installStudio`: gated on `options.installStudio`; spawns Prisma
Studio. -/
def installStudio (options : ModuleOptions) (env : Env) : M Unit :=
  if options.installStudio then
    M.tryCatch
      (M.bind (runCmd env Cmd.prismaStudio) fun _ =>
        success studioInstalledMsg)
      (error "Failed to install Prisma Studio.")
  else
    M.pure ()

/-- `promptCli`: in automatic mode installs the CLI directly; otherwise
detects the CLI (returning early on success), and on detection failure
asks whether to install it.  The early `return` of the source is modelled
by the boolean threaded out of the `try`/`catch`. -/
def promptCli (options : ModuleOptions) (env : Env) : M Unit :=
  if options.autoSetupPrisma then
    M.bind (installCli options env) fun _ =>
      success "Prisma CLI successfully installed."
  else
    M.bind
      (M.tryCatch
        (M.bind (detectCli env) fun _ =>
          M.bind (success "Prisma CLI is installed.") fun _ => M.pure true)
        (M.bind (error "Prisma CLI is not installed.") fun _ => M.pure false))
      fun installed =>
        if installed then
          M.pure ()
        else
          M.bind (askPrompt env PromptName.installPrisma) fun response =>
            if response then
              M.bind (installCli options env) fun _ =>
                success "Prisma CLI successfully installed."
            else
              consoleLog "Prisma CLI installation skipped."

/-- `promptInitPrisma`: checks whether the schema file exists; when it
does not, initializes Prisma, writes the model fragment and formats the
schema — directly in automatic mode, after a confirmation otherwise. -/
def promptInitPrisma (options : ModuleOptions) (env : Env) : M Unit :=
  M.bind existsSchemaFile fun schemaExists =>
    M.bind
      (if schemaExists then
        M.bind (success "Prisma schema file exists.") fun _ =>
          consoleLog schemaExistsAdvice
      else
        consoleLog "Prisma schema file does not exist.")
      fun _ =>
        if schemaExists == false then
          if options.autoSetupPrisma then
            M.bind (initPrisma options env) fun _ =>
              M.bind (writeToSchema options env) fun _ =>
                formatSchema options env
          else
            M.bind (askPrompt env PromptName.initPrisma) fun response =>
              if response then
                M.bind (initPrisma options env) fun _ =>
                  M.bind (writeToSchema options env) fun _ =>
                    formatSchema options env
              else
                consoleLog "Prisma initialization skipped."
        else
          M.pure ()

/-- `promptRunMigration`: migrates directly in automatic mode, after a
confirmation otherwise; the `catch (e) { error(e) }` around the call is
kept even though `runMigration` never throws. -/
def promptRunMigration (options : ModuleOptions) (env : Env) : M Unit :=
  if options.autoSetupPrisma then
    runMigration options env
  else
    M.bind (askPrompt env PromptName.runMigration) fun response =>
      if response then
        M.tryCatch (runMigration options env) (emit Event.logException)
      else
        consoleLog "Prisma Migrate skipped."

/-- `promptGenerateClient`: generates the client directly in automatic
mode, after a confirmation otherwise. -/
def promptGenerateClient (options : ModuleOptions) (env : Env) : M Unit :=
  if options.autoSetupPrisma then
    M.tryCatch (generateClient options env) (emit Event.logException)
  else
    M.bind (askPrompt env PromptName.generateClient) fun response =>
      if response then
        M.tryCatch (generateClient options env) (emit Event.logException)
      else
        consoleLog "Prisma Client generation skipped."

/-- `promptInstallStudio`: installs Prisma Studio and registers the
devtools tab — directly in automatic mode, after a confirmation
otherwise.  Registering the `devtools:customTabs` hook callback is
modelled as the `registerTab` event. -/
def promptInstallStudio (options : ModuleOptions) (env : Env) : M Unit :=
  if options.autoSetupPrisma then
    M.bind (installStudio options env) fun _ =>
      emit (Event.registerTab prismaStudioTab)
  else
    M.bind (askPrompt env PromptName.installStudio) fun response =>
      if response then
        M.bind (M.tryCatch (installStudio options env) (emit Event.logException))
          fun _ => emit (Event.registerTab prismaStudioTab)
      else
        consoleLog "Prisma Studio installation skipped."

/-- `writeClientPlugin`: writes the singleton client accessor to
`lib/prisma.ts` (creating the `lib` directory first) only when the file
does not already exist. -/
def writeClientPlugin : M Unit :=
  M.bind existsLibPrisma fun existingContent =>
    M.tryCatch
      (if !existingContent then
        M.bind existsLibDir fun libExists =>
          M.bind (if !libExists then mkdirLib else M.pure ()) fun _ =>
            M.bind (writeLibPrisma prismaClientFileContent) fun _ =>
              success "Global instance of Prisma Client successfully created within lib/prisma.ts file."
      else
        M.pure ())
      (emit Event.logException)

/-- `force_skip_prisma_setup`:
`(import.meta.env.SKIP_PRISMA_SETUP ?? false) || npm_lifecycle_event === "test"`. -/
def forceSkipPrismaSetup (env : Env) : Bool :=
  env.skipPrismaSetupEnv || env.npmLifecycleEvent == "test"

/-- The lifecycle-event guard in front of `promptInstallStudio`. -/
def lifecycleAllowsStudio (env : Env) : Bool :=
  env.npmLifecycleEvent != "dev:prepare" &&
    env.npmLifecycleEvent != "postinstall" &&
    env.npmLifecycleEvent != "test"

/-- `setupPrismaORM`: the whole pipeline.  Note that the
`promptInstallStudio` call sits outside the `!options.skipInstallations`
block and is guarded only by the lifecycle event. -/
def setupPrismaORM (options : ModuleOptions) (env : Env) : M Unit :=
  M.bind (consoleLog "Setting up Prisma ORM..") fun _ =>
    if forceSkipPrismaSetup env then
      error "Skipping Prisma ORM setup."
    else
      M.bind
        (if !options.skipInstallations then
          M.bind (promptCli options env) fun _ =>
            M.bind (promptInitPrisma options env) fun _ =>
              M.bind (promptRunMigration options env) fun _ =>
                M.bind (promptGenerateClient options env) fun _ =>
                  writeClientPlugin
        else
          M.pure ())
        fun _ =>
          if lifecycleAllowsStudio env then
            promptInstallStudio options env
          else
            M.pure ()

/-- A full pipeline run from an initial file system. -/
def runSetup (options : ModuleOptions) (env : Env) (s : FS) : Outcome Unit :=
  setupPrismaORM options env s

/-- The event trace of a full pipeline run. -/
def events (options : ModuleOptions) (env : Env) (s : FS) : List Event :=
  (runSetup options env s).events

/-- The final file system of a full pipeline run. -/
def finalFS (options : ModuleOptions) (env : Env) (s : FS) : FS :=
  (runSetup options env s).fs

/-! Closed forms of each step's trace and file-system effect, proved
equal to the monadic step functions.  All subsequent reasoning is on
these closed forms. -/

/-- Closed form of the trace of `installCli`. -/
def installCliEvents (o : ModuleOptions) (e : Env) : List Event :=
  if o.installCli then
    Event.cmd Cmd.npmInstallPrismaDev ::
      (if e.cmdFails Cmd.npmInstallPrismaDev then
        [Event.logError "Failed to install Prisma CLI."]
      else [])
  else []

/-- Closed form of the trace of `initPrisma`. -/
def initPrismaEvents (o : ModuleOptions) (e : Env) : List Event :=
  if o.initPrisma then
    Event.cmd Cmd.prismaInit ::
      (if e.cmdFails Cmd.prismaInit then
        [Event.logError "Failed to initialize Prisma project."]
      else [Event.logStdout Cmd.prismaInit])
  else []

/-- The schema content written by `writeToSchema` given the previous
content (`none` when the read throws, in which case the source falls back
to the empty string). -/
def updatedSchema (prev : Option String) : String :=
  (prev.getD "").trim ++ "\n\n" ++ addModel

/-- Closed form of the trace of `writeToSchema`. -/
def writeToSchemaEvents (o : ModuleOptions) (s : FS) : List Event :=
  if o.writeToSchema then
    (match s.schemaContent with
     | some _ => []
     | none => [Event.logError "Error reading existing schema file"]) ++
      [Event.writeFile "prisma/schema.prisma" (updatedSchema s.schemaContent)]
  else []

/-- Closed form of the file-system effect of `writeToSchema`. -/
def writeToSchemaFS (o : ModuleOptions) (s : FS) : FS :=
  if o.writeToSchema then
    { s with schemaExists := true, schemaContent := some (updatedSchema s.schemaContent) }
  else s

/-- Closed form of the trace of `formatSchema`. -/
def formatSchemaEvents (o : ModuleOptions) (e : Env) : List Event :=
  if o.formatSchema then
    Event.cmd Cmd.prismaFormat ::
      (if e.cmdFails Cmd.prismaFormat then
        [Event.logError "Failed to format Prisma schema file."]
      else [])
  else []

/-- Closed form of the trace of `runMigration`. -/
def runMigrationEvents (o : ModuleOptions) (e : Env) : List Event :=
  if o.runMigration then
    Event.cmd Cmd.prismaMigrateDev ::
      (if e.cmdFails Cmd.prismaMigrateDev then
        [Event.logError "Failed to run Prisma migration."]
      else [Event.logSuccess "Created User and Post tables in your SQLite database."])
  else []

/-- Closed form of the trace of `generateClient`. -/
def generateClientEvents (o : ModuleOptions) (e : Env) : List Event :=
  if o.installClient && o.generateClient then
    Event.cmd Cmd.npmInstallClient ::
      (if e.cmdFails Cmd.npmInstallClient then
        [Event.logError "Failed to generate Prisma Client."]
      else
        Event.cmd Cmd.prismaGenerate ::
          (if e.cmdFails Cmd.prismaGenerate then
            [Event.logError "Failed to generate Prisma Client."]
          else [Event.logStdout Cmd.prismaGenerate]))
  else []

/-- Closed form of the trace of `installStudio`. -/
def installStudioEvents (o : ModuleOptions) (e : Env) : List Event :=
  if o.installStudio then
    Event.cmd Cmd.prismaStudio ::
      (if e.cmdFails Cmd.prismaStudio then
        [Event.logError "Failed to install Prisma Studio."]
      else [Event.logSuccess studioInstalledMsg])
  else []

/-- Closed form of the trace of `promptCli`. -/
def promptCliEvents (o : ModuleOptions) (e : Env) : List Event :=
  if o.autoSetupPrisma then
    installCliEvents o e ++ [Event.logSuccess "Prisma CLI successfully installed."]
  else
    Event.cmd Cmd.prismaVersion ::
      (if e.cmdFails Cmd.prismaVersion then
        Event.logError "Prisma CLI is not installed." ::
          Event.prompt PromptName.installPrisma ::
            (if e.promptAnswer PromptName.installPrisma then
              installCliEvents o e ++ [Event.logSuccess "Prisma CLI successfully installed."]
            else [Event.logInfo "Prisma CLI installation skipped."])
      else [Event.logSuccess "Prisma CLI is installed."])

/-- Closed form of the trace of `promptInitPrisma`. -/
def promptInitPrismaEvents (o : ModuleOptions) (e : Env) (s : FS) : List Event :=
  (if s.schemaExists then
    [Event.logSuccess "Prisma schema file exists.", Event.logInfo schemaExistsAdvice]
  else [Event.logInfo "Prisma schema file does not exist."]) ++
    (if s.schemaExists then []
    else if o.autoSetupPrisma then
      initPrismaEvents o e ++ writeToSchemaEvents o s ++ formatSchemaEvents o e
    else
      Event.prompt PromptName.initPrisma ::
        (if e.promptAnswer PromptName.initPrisma then
          initPrismaEvents o e ++ writeToSchemaEvents o s ++ formatSchemaEvents o e
        else [Event.logInfo "Prisma initialization skipped."]))

/-- Closed form of the file-system effect of `promptInitPrisma`. -/
def promptInitPrismaFS (o : ModuleOptions) (e : Env) (s : FS) : FS :=
  if s.schemaExists then s
  else if o.autoSetupPrisma || e.promptAnswer PromptName.initPrisma then
    writeToSchemaFS o s
  else s

/-- Closed form of the trace of `promptRunMigration`. -/
def promptRunMigrationEvents (o : ModuleOptions) (e : Env) : List Event :=
  if o.autoSetupPrisma then runMigrationEvents o e
  else
    Event.prompt PromptName.runMigration ::
      (if e.promptAnswer PromptName.runMigration then runMigrationEvents o e
      else [Event.logInfo "Prisma Migrate skipped."])

/-- Closed form of the trace of `promptGenerateClient`. -/
def promptGenerateClientEvents (o : ModuleOptions) (e : Env) : List Event :=
  if o.autoSetupPrisma then generateClientEvents o e
  else
    Event.prompt PromptName.generateClient ::
      (if e.promptAnswer PromptName.generateClient then generateClientEvents o e
      else [Event.logInfo "Prisma Client generation skipped."])

/-- Closed form of the trace of `promptInstallStudio`. -/
def promptInstallStudioEvents (o : ModuleOptions) (e : Env) : List Event :=
  if o.autoSetupPrisma then
    installStudioEvents o e ++ [Event.registerTab prismaStudioTab]
  else
    Event.prompt PromptName.installStudio ::
      (if e.promptAnswer PromptName.installStudio then
        installStudioEvents o e ++ [Event.registerTab prismaStudioTab]
      else [Event.logInfo "Prisma Studio installation skipped."])

/-- Closed form of the trace of `writeClientPlugin`. -/
def writeClientPluginEvents (s : FS) : List Event :=
  if s.libPrismaExists then []
  else
    (if s.libDirExists then [] else [Event.mkdir "lib"]) ++
      [Event.writeFile "lib/prisma.ts" prismaClientFileContent,
       Event.logSuccess "Global instance of Prisma Client successfully created within lib/prisma.ts file."]

/-- Closed form of the file-system effect of `writeClientPlugin`. -/
def writeClientPluginFS (s : FS) : FS :=
  if s.libPrismaExists then s
  else
    { s with
      libPrismaExists := true
      libPrismaContent := prismaClientFileContent
      libDirExists := true }

/-- Closed form of the trace of the five steps inside the
`!options.skipInstallations` block. -/
def mainPhaseEvents (o : ModuleOptions) (e : Env) (s : FS) : List Event :=
  promptCliEvents o e ++ promptInitPrismaEvents o e s ++
    promptRunMigrationEvents o e ++ promptGenerateClientEvents o e ++
      writeClientPluginEvents (promptInitPrismaFS o e s)

/-- Closed form of the whole pipeline trace. -/
def setupEvents (o : ModuleOptions) (e : Env) (s : FS) : List Event :=
  Event.logInfo "Setting up Prisma ORM.." ::
    (if forceSkipPrismaSetup e then [Event.logError "Skipping Prisma ORM setup."]
    else
      (if o.skipInstallations then [] else mainPhaseEvents o e s) ++
        (if lifecycleAllowsStudio e then promptInstallStudioEvents o e else []))

/-- Closed form of the final file system of the whole pipeline. -/
def setupFS (o : ModuleOptions) (e : Env) (s : FS) : FS :=
  if forceSkipPrismaSetup e then s
  else if o.skipInstallations then s
  else writeClientPluginFS (promptInitPrismaFS o e s)

/-! Membership characterizations of each closed-form trace. -/

/-! Concrete fixtures used by counterexamples and witnesses. -/

/-- The default module options of the source (`defaults` in the module
definition): every step enabled, `skipInstallations` and
`autoSetupPrisma` off. -/
def defaultOptions : ModuleOptions :=
  { installCli := true
    initPrisma := true
    writeToSchema := true
    formatSchema := true
    runMigration := true
    installClient := true
    generateClient := true
    installStudio := true
    skipInstallations := false
    autoSetupPrisma := false }

/-- Environment where every command succeeds, the user confirms every
prompt, and the module runs under the `dev` lifecycle event. -/
def envAllOk : Env :=
  { cmdFails := fun _ => false
    promptAnswer := fun _ => true
    npmLifecycleEvent := "dev"
    skipPrismaSetupEnv := false }

/-- Environment where every command fails. -/
def envAllFail : Env :=
  { cmdFails := fun _ => true
    promptAnswer := fun _ => true
    npmLifecycleEvent := "dev"
    skipPrismaSetupEnv := false }

/-- Fresh project: no schema file, no client accessor, no `lib` dir. -/
def fs0 : FS :=
  { schemaExists := false
    schemaContent := none
    libPrismaExists := false
    libPrismaContent := ""
    libDirExists := false }

/-- Project where the schema and the client accessor already exist. -/
def fsLib : FS :=
  { schemaExists := true
    schemaContent := some "datasource db"
    libPrismaExists := true
    libPrismaContent := "my existing accessor"
    libDirExists := true }

/-! Step numbering for the ordering claim: which of the eight pipeline
steps an externally visible action belongs to. -/

/-- Step number of each external command: (1) CLI detect/install,
(2) init, (4) format, (5) migrate, (6) install and generate client,
(8) studio. -/
def cmdStep : Cmd → Nat
  | Cmd.prismaVersion => 1
  | Cmd.npmInstallPrismaDev => 1
  | Cmd.prismaInit => 2
  | Cmd.prismaFormat => 4
  | Cmd.prismaMigrateDev => 5
  | Cmd.npmInstallClient => 6
  | Cmd.prismaGenerate => 6
  | Cmd.prismaStudio => 8

/-- Step number of an event, `none` for console output and prompts.
Writing the schema file is step 3; creating `lib` and writing the client
accessor is step 7; registering the devtools tab belongs to step 8. -/
def stepOf : Event → Option Nat
  | Event.cmd c => some (cmdStep c)
  | Event.writeFile p _ => if p = "prisma/schema.prisma" then some 3 else some 7
  | Event.mkdir _ => some 7
  | Event.registerTab _ => some 8
  | _ => none

/-- The step numbers occurring in `l` are ascending and lie within
`[lo, hi]`. -/
def StepsSortedIn (lo hi : Nat) (l : List Event) : Prop :=
  (l.filterMap stepOf).Pairwise (· ≤ ·) ∧ ∀ n ∈ l.filterMap stepOf, lo ≤ n ∧ n ≤ hi

instance (lo hi : Nat) (l : List Event) : Decidable (StepsSortedIn lo hi l) := by
  unfold StepsSortedIn
  infer_instance

/-! Which steps execute: membership of step numbers in each trace,
characterized by conditions that do not mention command failures. -/

/-- Condition for pipeline step `n` to be visible in the trace.  It
mentions the options, the prompt answers, the process environment and the
initial file system — but never which commands fail. -/
def stepExecCond (o : ModuleOptions) (e : Env) (s : FS) (n : Nat) : Prop :=
  forceSkipPrismaSetup e = false ∧
    ((o.skipInstallations = false ∧
      (((o.autoSetupPrisma = false ∨ o.installCli = true) ∧ n = 1) ∨
        (s.schemaExists = false ∧
          (o.autoSetupPrisma = true ∨ e.promptAnswer PromptName.initPrisma = true) ∧
          ((o.initPrisma = true ∧ n = 2) ∨ (o.writeToSchema = true ∧ n = 3) ∨
            (o.formatSchema = true ∧ n = 4))) ∨
        ((o.autoSetupPrisma = true ∨ e.promptAnswer PromptName.runMigration = true) ∧
          o.runMigration = true ∧ n = 5) ∨
        ((o.autoSetupPrisma = true ∨ e.promptAnswer PromptName.generateClient = true) ∧
          o.installClient = true ∧ o.generateClient = true ∧ n = 6) ∨
        (s.libPrismaExists = false ∧ n = 7))) ∨
      (lifecycleAllowsStudio e = true ∧
        (o.autoSetupPrisma = true ∨ e.promptAnswer PromptName.installStudio = true) ∧ n = 8))

/-- The error message `error(...)` printed by the pipeline when the given
external command fails. -/
def failMsg : Cmd → String
  | Cmd.prismaVersion => "Prisma CLI is not installed."
  | Cmd.npmInstallPrismaDev => "Failed to install Prisma CLI."
  | Cmd.prismaInit => "Failed to initialize Prisma project."
  | Cmd.prismaFormat => "Failed to format Prisma schema file."
  | Cmd.prismaMigrateDev => "Failed to run Prisma migration."
  | Cmd.npmInstallClient => "Failed to generate Prisma Client."
  | Cmd.prismaGenerate => "Failed to generate Prisma Client."
  | Cmd.prismaStudio => "Failed to install Prisma Studio."

/-- Projection of an event to the external command it invokes, if any. -/
def cmdOf : Event → Option Cmd
  | Event.cmd c => some c
  | _ => none

/-- Default options with the "skip all" flag on (and automatic mode on,
so that no prompt blocks the remaining studio phase). -/
def optsSkipAll : ModuleOptions :=
  { defaultOptions with skipInstallations := true, autoSetupPrisma := true }

/-- Default options with the "fully automatic" flag on. -/
def optsAuto : ModuleOptions :=
  { defaultOptions with autoSetupPrisma := true }

/-- Options with every per-step flag off. -/
def optsAllOff : ModuleOptions :=
  { installCli := false
    initPrisma := false
    writeToSchema := false
    formatSchema := false
    runMigration := false
    installClient := false
    generateClient := false
    installStudio := false
    skipInstallations := false
    autoSetupPrisma := false }

/-! The claims. -/

lemma installCli_run (o : ModuleOptions) (e : Env) (s : FS) :
    installCli o e s = ⟨s, installCliEvents o e, Except.ok ()⟩ := by
  cases hc : o.installCli <;>
    cases hf : e.cmdFails Cmd.npmInstallPrismaDev <;>
      simp [installCli, installCliEvents, M.tryCatch, runCmd, error, emit, M.pure, hc, hf]

lemma initPrisma_run (o : ModuleOptions) (e : Env) (s : FS) :
    initPrisma o e s = ⟨s, initPrismaEvents o e, Except.ok ()⟩ := by
  cases hc : o.initPrisma <;>
    cases hf : e.cmdFails Cmd.prismaInit <;>
      simp [initPrisma, initPrismaEvents, M.tryCatch, M.bind, runCmd, error, emit, M.pure, hc, hf]

lemma writeToSchema_run (o : ModuleOptions) (e : Env) (s : FS) :
    writeToSchema o e s = ⟨writeToSchemaFS o s, writeToSchemaEvents o s, Except.ok ()⟩ := by
  cases hw : o.writeToSchema <;>
    cases hs : s.schemaContent <;>
      simp [writeToSchema, writeToSchemaEvents, writeToSchemaFS, updatedSchema,
        readSchemaFile, writeSchemaFile, M.tryCatch, M.bind, error, emit, M.pure, hw, hs]

lemma formatSchema_run (o : ModuleOptions) (e : Env) (s : FS) :
    formatSchema o e s = ⟨s, formatSchemaEvents o e, Except.ok ()⟩ := by
  cases hc : o.formatSchema <;>
    cases hf : e.cmdFails Cmd.prismaFormat <;>
      simp [formatSchema, formatSchemaEvents, M.tryCatch, runCmd, error, emit, M.pure, hc, hf]

lemma runMigration_run (o : ModuleOptions) (e : Env) (s : FS) :
    runMigration o e s = ⟨s, runMigrationEvents o e, Except.ok ()⟩ := by
  cases hc : o.runMigration <;>
    cases hf : e.cmdFails Cmd.prismaMigrateDev <;>
      simp [runMigration, runMigrationEvents, M.tryCatch, M.bind, runCmd, success, error,
        emit, M.pure, hc, hf]

lemma generateClient_run (o : ModuleOptions) (e : Env) (s : FS) :
    generateClient o e s = ⟨s, generateClientEvents o e, Except.ok ()⟩ := by
  cases hc : o.installClient <;>
    cases hc' : o.generateClient <;>
      cases hf : e.cmdFails Cmd.npmInstallClient <;>
        cases hg : e.cmdFails Cmd.prismaGenerate <;>
          simp [generateClient, generateClientEvents, M.tryCatch, M.bind, runCmd, error,
            emit, M.pure, hc, hc', hf, hg]

lemma installStudio_run (o : ModuleOptions) (e : Env) (s : FS) :
    installStudio o e s = ⟨s, installStudioEvents o e, Except.ok ()⟩ := by
  cases hc : o.installStudio <;>
    cases hf : e.cmdFails Cmd.prismaStudio <;>
      simp [installStudio, installStudioEvents, M.tryCatch, M.bind, runCmd, success, error,
        emit, M.pure, hc, hf]

lemma promptCli_run (o : ModuleOptions) (e : Env) (s : FS) :
    promptCli o e s = ⟨s, promptCliEvents o e, Except.ok ()⟩ := by
  cases ha : o.autoSetupPrisma <;>
    cases hv : e.cmdFails Cmd.prismaVersion <;>
      cases hp : e.promptAnswer PromptName.installPrisma <;>
        simp [promptCli, promptCliEvents, installCli_run, detectCli, runCmd, askPrompt,
          success, error, consoleLog, emit, M.bind, M.tryCatch, M.pure, ha, hv, hp]

lemma promptInitPrisma_run (o : ModuleOptions) (e : Env) (s : FS) :
    promptInitPrisma o e s
      = ⟨promptInitPrismaFS o e s, promptInitPrismaEvents o e s, Except.ok ()⟩ := by
  cases hs : s.schemaExists <;>
    cases ha : o.autoSetupPrisma <;>
      cases hp : e.promptAnswer PromptName.initPrisma <;>
        simp [promptInitPrisma, promptInitPrismaEvents, promptInitPrismaFS,
          initPrisma_run, writeToSchema_run, formatSchema_run, existsSchemaFile,
          askPrompt, success, consoleLog, emit, M.bind, M.pure, ha, hs, hp]

lemma promptRunMigration_run (o : ModuleOptions) (e : Env) (s : FS) :
    promptRunMigration o e s = ⟨s, promptRunMigrationEvents o e, Except.ok ()⟩ := by
  cases ha : o.autoSetupPrisma <;>
    cases hp : e.promptAnswer PromptName.runMigration <;>
      simp [promptRunMigration, promptRunMigrationEvents, runMigration_run, askPrompt,
        consoleLog, emit, M.bind, M.tryCatch, M.pure, ha, hp]

lemma promptGenerateClient_run (o : ModuleOptions) (e : Env) (s : FS) :
    promptGenerateClient o e s = ⟨s, promptGenerateClientEvents o e, Except.ok ()⟩ := by
  cases ha : o.autoSetupPrisma <;>
    cases hp : e.promptAnswer PromptName.generateClient <;>
      simp [promptGenerateClient, promptGenerateClientEvents, generateClient_run, askPrompt,
        consoleLog, emit, M.bind, M.tryCatch, M.pure, ha, hp]

lemma promptInstallStudio_run (o : ModuleOptions) (e : Env) (s : FS) :
    promptInstallStudio o e s = ⟨s, promptInstallStudioEvents o e, Except.ok ()⟩ := by
  cases ha : o.autoSetupPrisma <;>
    cases hp : e.promptAnswer PromptName.installStudio <;>
      simp [promptInstallStudio, promptInstallStudioEvents, installStudio_run, askPrompt,
        consoleLog, emit, M.bind, M.tryCatch, M.pure, ha, hp]

lemma writeClientPlugin_run (s : FS) :
    writeClientPlugin s = ⟨writeClientPluginFS s, writeClientPluginEvents s, Except.ok ()⟩ := by
  cases hl : s.libPrismaExists <;>
    cases hd : s.libDirExists <;>
      simp [writeClientPlugin, writeClientPluginEvents, writeClientPluginFS,
        existsLibPrisma, existsLibDir, mkdirLib, writeLibPrisma, success, emit,
        M.bind, M.tryCatch, M.pure, hl, hd]

/-- The whole pipeline run in closed form: it always returns normally
(`Except.ok`), with the trace `setupEvents` and final file system
`setupFS`. -/
lemma setupPrismaORM_run (o : ModuleOptions) (e : Env) (s : FS) :
    setupPrismaORM o e s = ⟨setupFS o e s, setupEvents o e s, Except.ok ()⟩ := by
  cases hf : forceSkipPrismaSetup e <;>
    cases hk : o.skipInstallations <;>
      cases hl : lifecycleAllowsStudio e <;>
        simp [setupPrismaORM, setupEvents, setupFS, mainPhaseEvents,
          promptCli_run, promptInitPrisma_run, promptRunMigration_run,
          promptGenerateClient_run, promptInstallStudio_run, writeClientPlugin_run,
          consoleLog, error, emit, M.bind, M.pure, hf, hk, hl]

lemma events_eq (o : ModuleOptions) (e : Env) (s : FS) :
    events o e s = setupEvents o e s := by
  simp [events, runSetup, setupPrismaORM_run]

lemma finalFS_eq (o : ModuleOptions) (e : Env) (s : FS) :
    finalFS o e s = setupFS o e s := by
  simp [finalFS, runSetup, setupPrismaORM_run]

lemma runSetup_ok (o : ModuleOptions) (e : Env) (s : FS) :
    (runSetup o e s).result = Except.ok () := by
  simp [runSetup, setupPrismaORM_run]

lemma mem_installCliEvents {ev : Event} {o : ModuleOptions} {e : Env} :
    ev ∈ installCliEvents o e ↔
      o.installCli = true ∧
        (ev = Event.cmd Cmd.npmInstallPrismaDev ∨
          (e.cmdFails Cmd.npmInstallPrismaDev = true ∧
            ev = Event.logError "Failed to install Prisma CLI.")) := by
  cases hc : o.installCli <;>
    cases hf : e.cmdFails Cmd.npmInstallPrismaDev <;>
      simp [installCliEvents, hc, hf]

lemma mem_initPrismaEvents {ev : Event} {o : ModuleOptions} {e : Env} :
    ev ∈ initPrismaEvents o e ↔
      o.initPrisma = true ∧
        (ev = Event.cmd Cmd.prismaInit ∨
          (e.cmdFails Cmd.prismaInit = true ∧
            ev = Event.logError "Failed to initialize Prisma project.") ∨
          (e.cmdFails Cmd.prismaInit = false ∧ ev = Event.logStdout Cmd.prismaInit)) := by
  cases hc : o.initPrisma <;>
    cases hf : e.cmdFails Cmd.prismaInit <;>
      simp [initPrismaEvents, hc, hf]

lemma mem_writeToSchemaEvents {ev : Event} {o : ModuleOptions} {s : FS} :
    ev ∈ writeToSchemaEvents o s ↔
      o.writeToSchema = true ∧
        ((s.schemaContent = none ∧ ev = Event.logError "Error reading existing schema file") ∨
          ev = Event.writeFile "prisma/schema.prisma" (updatedSchema s.schemaContent)) := by
  cases hc : o.writeToSchema <;>
    cases hs : s.schemaContent <;>
      simp [writeToSchemaEvents, hc, hs]

lemma mem_formatSchemaEvents {ev : Event} {o : ModuleOptions} {e : Env} :
    ev ∈ formatSchemaEvents o e ↔
      o.formatSchema = true ∧
        (ev = Event.cmd Cmd.prismaFormat ∨
          (e.cmdFails Cmd.prismaFormat = true ∧
            ev = Event.logError "Failed to format Prisma schema file.")) := by
  cases hc : o.formatSchema <;>
    cases hf : e.cmdFails Cmd.prismaFormat <;>
      simp [formatSchemaEvents, hc, hf]

lemma mem_runMigrationEvents {ev : Event} {o : ModuleOptions} {e : Env} :
    ev ∈ runMigrationEvents o e ↔
      o.runMigration = true ∧
        (ev = Event.cmd Cmd.prismaMigrateDev ∨
          (e.cmdFails Cmd.prismaMigrateDev = true ∧
            ev = Event.logError "Failed to run Prisma migration.") ∨
          (e.cmdFails Cmd.prismaMigrateDev = false ∧
            ev = Event.logSuccess "Created User and Post tables in your SQLite database.")) := by
  cases hc : o.runMigration <;>
    cases hf : e.cmdFails Cmd.prismaMigrateDev <;>
      simp [runMigrationEvents, hc, hf]

lemma mem_generateClientEvents {ev : Event} {o : ModuleOptions} {e : Env} :
    ev ∈ generateClientEvents o e ↔
      o.installClient = true ∧ o.generateClient = true ∧
        (ev = Event.cmd Cmd.npmInstallClient ∨
          (e.cmdFails Cmd.npmInstallClient = true ∧
            ev = Event.logError "Failed to generate Prisma Client.") ∨
          (e.cmdFails Cmd.npmInstallClient = false ∧
            (ev = Event.cmd Cmd.prismaGenerate ∨
              (e.cmdFails Cmd.prismaGenerate = true ∧
                ev = Event.logError "Failed to generate Prisma Client.") ∨
              (e.cmdFails Cmd.prismaGenerate = false ∧
                ev = Event.logStdout Cmd.prismaGenerate)))) := by
  cases hc : o.installClient <;>
    cases hg : o.generateClient <;>
      cases hf : e.cmdFails Cmd.npmInstallClient <;>
        cases hf' : e.cmdFails Cmd.prismaGenerate <;>
          simp [generateClientEvents, hc, hg, hf, hf', and_assoc]

lemma mem_installStudioEvents {ev : Event} {o : ModuleOptions} {e : Env} :
    ev ∈ installStudioEvents o e ↔
      o.installStudio = true ∧
        (ev = Event.cmd Cmd.prismaStudio ∨
          (e.cmdFails Cmd.prismaStudio = true ∧
            ev = Event.logError "Failed to install Prisma Studio.") ∨
          (e.cmdFails Cmd.prismaStudio = false ∧ ev = Event.logSuccess studioInstalledMsg)) := by
  cases hc : o.installStudio <;>
    cases hf : e.cmdFails Cmd.prismaStudio <;>
      simp [installStudioEvents, hc, hf]

lemma mem_writeClientPluginEvents {ev : Event} {s : FS} :
    ev ∈ writeClientPluginEvents s ↔
      s.libPrismaExists = false ∧
        ((s.libDirExists = false ∧ ev = Event.mkdir "lib") ∨
          ev = Event.writeFile "lib/prisma.ts" prismaClientFileContent ∨
          ev = Event.logSuccess "Global instance of Prisma Client successfully created within lib/prisma.ts file.") := by
  cases hl : s.libPrismaExists <;>
    cases hd : s.libDirExists <;>
      simp [writeClientPluginEvents, hl, hd]

lemma mem_promptCliEvents {ev : Event} {o : ModuleOptions} {e : Env} :
    ev ∈ promptCliEvents o e ↔
      (o.autoSetupPrisma = true ∧
        (ev ∈ installCliEvents o e ∨
          ev = Event.logSuccess "Prisma CLI successfully installed.")) ∨
      (o.autoSetupPrisma = false ∧
        (ev = Event.cmd Cmd.prismaVersion ∨
          (e.cmdFails Cmd.prismaVersion = false ∧
            ev = Event.logSuccess "Prisma CLI is installed.") ∨
          (e.cmdFails Cmd.prismaVersion = true ∧
            (ev = Event.logError "Prisma CLI is not installed." ∨
              ev = Event.prompt PromptName.installPrisma ∨
              (e.promptAnswer PromptName.installPrisma = true ∧
                (ev ∈ installCliEvents o e ∨
                  ev = Event.logSuccess "Prisma CLI successfully installed.")) ∨
              (e.promptAnswer PromptName.installPrisma = false ∧
                ev = Event.logInfo "Prisma CLI installation skipped."))))) := by
  cases ha : o.autoSetupPrisma <;>
    cases hv : e.cmdFails Cmd.prismaVersion <;>
      cases hp : e.promptAnswer PromptName.installPrisma <;>
        simp [promptCliEvents, ha, hv, hp]

lemma mem_promptInitPrismaEvents {ev : Event} {o : ModuleOptions} {e : Env} {s : FS} :
    ev ∈ promptInitPrismaEvents o e s ↔
      (s.schemaExists = true ∧
        (ev = Event.logSuccess "Prisma schema file exists." ∨
          ev = Event.logInfo schemaExistsAdvice)) ∨
      (s.schemaExists = false ∧
        (ev = Event.logInfo "Prisma schema file does not exist." ∨
          (o.autoSetupPrisma = false ∧ ev = Event.prompt PromptName.initPrisma) ∨
          (o.autoSetupPrisma = false ∧ e.promptAnswer PromptName.initPrisma = false ∧
            ev = Event.logInfo "Prisma initialization skipped.") ∨
          ((o.autoSetupPrisma = true ∨ e.promptAnswer PromptName.initPrisma = true) ∧
            (ev ∈ initPrismaEvents o e ∨ ev ∈ writeToSchemaEvents o s ∨
              ev ∈ formatSchemaEvents o e)))) := by
  cases hs : s.schemaExists <;>
    cases ha : o.autoSetupPrisma <;>
      cases hp : e.promptAnswer PromptName.initPrisma <;>
        simp [promptInitPrismaEvents, hs, ha, hp, or_assoc]

lemma mem_promptRunMigrationEvents {ev : Event} {o : ModuleOptions} {e : Env} :
    ev ∈ promptRunMigrationEvents o e ↔
      (o.autoSetupPrisma = false ∧
        (ev = Event.prompt PromptName.runMigration ∨
          (e.promptAnswer PromptName.runMigration = false ∧
            ev = Event.logInfo "Prisma Migrate skipped."))) ∨
      ((o.autoSetupPrisma = true ∨ e.promptAnswer PromptName.runMigration = true) ∧
        ev ∈ runMigrationEvents o e) := by
  cases ha : o.autoSetupPrisma <;>
    cases hp : e.promptAnswer PromptName.runMigration <;>
      simp [promptRunMigrationEvents, ha, hp]

lemma mem_promptGenerateClientEvents {ev : Event} {o : ModuleOptions} {e : Env} :
    ev ∈ promptGenerateClientEvents o e ↔
      (o.autoSetupPrisma = false ∧
        (ev = Event.prompt PromptName.generateClient ∨
          (e.promptAnswer PromptName.generateClient = false ∧
            ev = Event.logInfo "Prisma Client generation skipped."))) ∨
      ((o.autoSetupPrisma = true ∨ e.promptAnswer PromptName.generateClient = true) ∧
        ev ∈ generateClientEvents o e) := by
  cases ha : o.autoSetupPrisma <;>
    cases hp : e.promptAnswer PromptName.generateClient <;>
      simp [promptGenerateClientEvents, ha, hp]

lemma mem_promptInstallStudioEvents {ev : Event} {o : ModuleOptions} {e : Env} :
    ev ∈ promptInstallStudioEvents o e ↔
      (o.autoSetupPrisma = false ∧
        (ev = Event.prompt PromptName.installStudio ∨
          (e.promptAnswer PromptName.installStudio = false ∧
            ev = Event.logInfo "Prisma Studio installation skipped."))) ∨
      ((o.autoSetupPrisma = true ∨ e.promptAnswer PromptName.installStudio = true) ∧
        (ev ∈ installStudioEvents o e ∨ ev = Event.registerTab prismaStudioTab)) := by
  cases ha : o.autoSetupPrisma <;>
    cases hp : e.promptAnswer PromptName.installStudio <;>
      simp [promptInstallStudioEvents, ha, hp]

/-- The lib-directory and client-accessor fields of the file system are
untouched by the schema-initialization phase. -/
lemma promptInitPrismaFS_lib (o : ModuleOptions) (e : Env) (s : FS) :
    (promptInitPrismaFS o e s).libPrismaExists = s.libPrismaExists ∧
      (promptInitPrismaFS o e s).libPrismaContent = s.libPrismaContent ∧
      (promptInitPrismaFS o e s).libDirExists = s.libDirExists := by
  cases hs : s.schemaExists <;>
    cases ha : o.autoSetupPrisma <;>
      cases hp : e.promptAnswer PromptName.initPrisma <;>
        cases hw : o.writeToSchema <;>
          simp [promptInitPrismaFS, writeToSchemaFS, hs, ha, hp, hw]

/-- Master membership characterization of the whole pipeline trace. -/
lemma mem_events_iff {ev : Event} {o : ModuleOptions} {e : Env} {s : FS} :
    ev ∈ events o e s ↔
      ev = Event.logInfo "Setting up Prisma ORM.." ∨
        (forceSkipPrismaSetup e = true ∧ ev = Event.logError "Skipping Prisma ORM setup.") ∨
        (forceSkipPrismaSetup e = false ∧
          ((o.skipInstallations = false ∧
            (ev ∈ promptCliEvents o e ∨ ev ∈ promptInitPrismaEvents o e s ∨
              ev ∈ promptRunMigrationEvents o e ∨ ev ∈ promptGenerateClientEvents o e ∨
              ev ∈ writeClientPluginEvents (promptInitPrismaFS o e s))) ∨
            (lifecycleAllowsStudio e = true ∧ ev ∈ promptInstallStudioEvents o e))) := by
  cases hf : forceSkipPrismaSetup e <;>
    cases hk : o.skipInstallations <;>
      cases hl : lifecycleAllowsStudio e <;>
        simp [events_eq, setupEvents, mainPhaseEvents, hf, hk, hl, or_assoc]

lemma StepsSortedIn.append {lo₁ hi₁ lo₂ hi₂ : Nat} {l₁ l₂ : List Event}
    (h₁ : StepsSortedIn lo₁ hi₁ l₁) (h₂ : StepsSortedIn lo₂ hi₂ l₂)
    (hlo : lo₁ ≤ lo₂) (hhi : hi₁ ≤ hi₂) (hmid : hi₁ ≤ lo₂) :
    StepsSortedIn lo₁ hi₂ (l₁ ++ l₂) := by
  constructor
  · rw [List.filterMap_append]
    exact List.pairwise_append.mpr ⟨h₁.1, h₂.1, fun a ha b hb =>
      le_trans (h₁.2 a ha).2 (le_trans hmid (h₂.2 b hb).1)⟩
  · rw [List.filterMap_append]
    intro n hn
    rcases List.mem_append.mp hn with h | h
    · exact ⟨(h₁.2 n h).1, le_trans (h₁.2 n h).2 hhi⟩
    · exact ⟨le_trans hlo (h₂.2 n h).1, (h₂.2 n h).2⟩

lemma StepsSortedIn.cons_none {lo hi : Nat} {ev : Event} {l : List Event}
    (h : stepOf ev = none) (hl : StepsSortedIn lo hi l) :
    StepsSortedIn lo hi (ev :: l) := by
  refine ⟨?_, ?_⟩ <;> simp only [List.filterMap_cons, h]
  · exact hl.1
  · exact hl.2

lemma stepsIn_installCliEvents (o : ModuleOptions) (e : Env) :
    StepsSortedIn 1 1 (installCliEvents o e) := by
  cases hc : o.installCli <;>
    cases hf : e.cmdFails Cmd.npmInstallPrismaDev <;>
      simp [StepsSortedIn, installCliEvents, stepOf, cmdStep, hc, hf]

lemma stepsIn_initPrismaEvents (o : ModuleOptions) (e : Env) :
    StepsSortedIn 2 2 (initPrismaEvents o e) := by
  cases hc : o.initPrisma <;>
    cases hf : e.cmdFails Cmd.prismaInit <;>
      simp [StepsSortedIn, initPrismaEvents, stepOf, cmdStep, hc, hf]

lemma stepsIn_writeToSchemaEvents (o : ModuleOptions) (s : FS) :
    StepsSortedIn 3 3 (writeToSchemaEvents o s) := by
  cases hc : o.writeToSchema <;>
    cases hs : s.schemaContent <;>
      simp [StepsSortedIn, writeToSchemaEvents, stepOf, hc, hs]

lemma stepsIn_formatSchemaEvents (o : ModuleOptions) (e : Env) :
    StepsSortedIn 4 4 (formatSchemaEvents o e) := by
  cases hc : o.formatSchema <;>
    cases hf : e.cmdFails Cmd.prismaFormat <;>
      simp [StepsSortedIn, formatSchemaEvents, stepOf, cmdStep, hc, hf]

lemma stepsIn_runMigrationEvents (o : ModuleOptions) (e : Env) :
    StepsSortedIn 5 5 (runMigrationEvents o e) := by
  cases hc : o.runMigration <;>
    cases hf : e.cmdFails Cmd.prismaMigrateDev <;>
      simp [StepsSortedIn, runMigrationEvents, stepOf, cmdStep, hc, hf]

lemma stepsIn_generateClientEvents (o : ModuleOptions) (e : Env) :
    StepsSortedIn 6 6 (generateClientEvents o e) := by
  cases hc : o.installClient <;>
    cases hg : o.generateClient <;>
      cases hf : e.cmdFails Cmd.npmInstallClient <;>
        cases hf' : e.cmdFails Cmd.prismaGenerate <;>
          simp [StepsSortedIn, generateClientEvents, stepOf, cmdStep, hc, hg, hf, hf']

lemma stepsIn_installStudioEvents (o : ModuleOptions) (e : Env) :
    StepsSortedIn 8 8 (installStudioEvents o e) := by
  cases hc : o.installStudio <;>
    cases hf : e.cmdFails Cmd.prismaStudio <;>
      simp [StepsSortedIn, installStudioEvents, stepOf, cmdStep, hc, hf]

lemma stepsIn_writeClientPluginEvents (s : FS) :
    StepsSortedIn 7 7 (writeClientPluginEvents s) := by
  cases hl : s.libPrismaExists <;>
    cases hd : s.libDirExists <;>
      simp [StepsSortedIn, writeClientPluginEvents, stepOf, hl, hd]

lemma StepsSortedIn.cons_lo {lo hi : Nat} {ev : Event} {l : List Event}
    (h : stepOf ev = some lo) (hl : StepsSortedIn lo hi l) (hlohi : lo ≤ hi) :
    StepsSortedIn lo hi (ev :: l) := by
  constructor
  · rw [List.filterMap_cons, h]
    exact List.pairwise_cons.mpr ⟨fun b hb => (hl.2 b hb).1, hl.1⟩
  · rw [List.filterMap_cons, h]
    intro n hn
    rcases List.mem_cons.mp hn with h' | h'
    · subst h'
      exact ⟨le_rfl, hlohi⟩
    · exact hl.2 n h'

lemma StepsSortedIn.weaken {lo hi lo' hi' : Nat} {l : List Event}
    (h : StepsSortedIn lo hi l) (hlo : lo' ≤ lo) (hhi : hi ≤ hi') :
    StepsSortedIn lo' hi' l :=
  ⟨h.1, fun n hn => ⟨le_trans hlo (h.2 n hn).1, le_trans (h.2 n hn).2 hhi⟩⟩

lemma stepsIn_promptCliEvents (o : ModuleOptions) (e : Env) :
    StepsSortedIn 1 1 (promptCliEvents o e) := by
  have hi := stepsIn_installCliEvents o e
  have hok : StepsSortedIn 1 1 [Event.logSuccess "Prisma CLI successfully installed."] := by
    decide
  cases ha : o.autoSetupPrisma
  · cases hv : e.cmdFails Cmd.prismaVersion
    · simp [promptCliEvents, ha, hv]
      decide
    · cases hp : e.promptAnswer PromptName.installPrisma
      · simp [promptCliEvents, ha, hv, hp]
        decide
      · simp [promptCliEvents, ha, hv, hp]
        exact StepsSortedIn.cons_lo rfl
          (StepsSortedIn.cons_none rfl (StepsSortedIn.cons_none rfl
            (hi.append hok le_rfl le_rfl le_rfl))) le_rfl
  · simp [promptCliEvents, ha]
    exact hi.append hok le_rfl le_rfl le_rfl

lemma stepsIn_promptInitPrismaEvents (o : ModuleOptions) (e : Env) (s : FS) :
    StepsSortedIn 2 4 (promptInitPrismaEvents o e s) := by
  have hc : StepsSortedIn 2 4
      (initPrismaEvents o e ++ (writeToSchemaEvents o s ++ formatSchemaEvents o e)) :=
    (stepsIn_initPrismaEvents o e).append
      ((stepsIn_writeToSchemaEvents o s).append (stepsIn_formatSchemaEvents o e)
        (by omega) (by omega) (by omega)) (by omega) (by omega) (by omega)
  cases hs : s.schemaExists
  · cases ha : o.autoSetupPrisma
    · cases hp : e.promptAnswer PromptName.initPrisma
      · simp [promptInitPrismaEvents, hs, ha, hp]
        decide
      · simp [promptInitPrismaEvents, hs, ha, hp]
        exact StepsSortedIn.cons_none rfl (StepsSortedIn.cons_none rfl hc)
    · simp [promptInitPrismaEvents, hs, ha]
      exact StepsSortedIn.cons_none rfl hc
  · simp [promptInitPrismaEvents, hs]
    decide

lemma stepsIn_promptRunMigrationEvents (o : ModuleOptions) (e : Env) :
    StepsSortedIn 5 5 (promptRunMigrationEvents o e) := by
  have hm := stepsIn_runMigrationEvents o e
  cases ha : o.autoSetupPrisma
  · cases hp : e.promptAnswer PromptName.runMigration
    · simp [promptRunMigrationEvents, ha, hp]
      decide
    · simp [promptRunMigrationEvents, ha, hp]
      exact StepsSortedIn.cons_none rfl hm
  · simpa [promptRunMigrationEvents, ha] using hm

lemma stepsIn_promptGenerateClientEvents (o : ModuleOptions) (e : Env) :
    StepsSortedIn 6 6 (promptGenerateClientEvents o e) := by
  have hm := stepsIn_generateClientEvents o e
  cases ha : o.autoSetupPrisma
  · cases hp : e.promptAnswer PromptName.generateClient
    · simp [promptGenerateClientEvents, ha, hp]
      decide
    · simp [promptGenerateClientEvents, ha, hp]
      exact StepsSortedIn.cons_none rfl hm
  · simpa [promptGenerateClientEvents, ha] using hm

lemma stepsIn_promptInstallStudioEvents (o : ModuleOptions) (e : Env) :
    StepsSortedIn 8 8 (promptInstallStudioEvents o e) := by
  have hm := stepsIn_installStudioEvents o e
  have htab : StepsSortedIn 8 8 [Event.registerTab prismaStudioTab] := by decide
  cases ha : o.autoSetupPrisma
  · cases hp : e.promptAnswer PromptName.installStudio
    · simp [promptInstallStudioEvents, ha, hp]
      decide
    · simp [promptInstallStudioEvents, ha, hp]
      exact StepsSortedIn.cons_none rfl (hm.append htab le_rfl le_rfl le_rfl)
  · simp [promptInstallStudioEvents, ha]
    exact hm.append htab le_rfl le_rfl le_rfl

lemma stepsIn_mainPhaseEvents (o : ModuleOptions) (e : Env) (s : FS) :
    StepsSortedIn 1 7 (mainPhaseEvents o e s) := by
  unfold mainPhaseEvents
  exact ((((stepsIn_promptCliEvents o e).append (stepsIn_promptInitPrismaEvents o e s)
    (by omega) (by omega) (by omega)).append (stepsIn_promptRunMigrationEvents o e)
    (by omega) (by omega) (by omega)).append (stepsIn_promptGenerateClientEvents o e)
    (by omega) (by omega) (by omega)).append
    (stepsIn_writeClientPluginEvents (promptInitPrismaFS o e s))
    (by omega) (by omega) (by omega)

lemma stepsIn_setupEvents (o : ModuleOptions) (e : Env) (s : FS) :
    StepsSortedIn 1 8 (setupEvents o e s) := by
  have hmain := stepsIn_mainPhaseEvents o e s
  have hstudio := stepsIn_promptInstallStudioEvents o e
  cases hf : forceSkipPrismaSetup e
  · cases hk : o.skipInstallations
    · cases hl : lifecycleAllowsStudio e
      · simp [setupEvents, hf, hk, hl]
        exact StepsSortedIn.cons_none rfl (hmain.weaken le_rfl (by omega))
      · simp [setupEvents, hf, hk, hl]
        exact StepsSortedIn.cons_none rfl
          (hmain.append hstudio (by omega) (by omega) (by omega))
    · cases hl : lifecycleAllowsStudio e
      · simp [setupEvents, hf, hk, hl]
        decide
      · simp [setupEvents, hf, hk, hl]
        exact StepsSortedIn.cons_none rfl (hstudio.weaken (by omega) le_rfl)
  · simp [setupEvents, hf]
    decide

lemma stepMem_installCliEvents {o : ModuleOptions} {e : Env} {n : Nat} :
    (∃ ev ∈ installCliEvents o e, stepOf ev = some n) ↔ o.installCli = true ∧ n = 1 := by
  cases hc : o.installCli <;>
    cases hf : e.cmdFails Cmd.npmInstallPrismaDev <;>
      simp [installCliEvents, stepOf, cmdStep, hc, hf, eq_comm]

lemma stepMem_initPrismaEvents {o : ModuleOptions} {e : Env} {n : Nat} :
    (∃ ev ∈ initPrismaEvents o e, stepOf ev = some n) ↔ o.initPrisma = true ∧ n = 2 := by
  cases hc : o.initPrisma <;>
    cases hf : e.cmdFails Cmd.prismaInit <;>
      simp [initPrismaEvents, stepOf, cmdStep, hc, hf, eq_comm]

lemma stepMem_writeToSchemaEvents {o : ModuleOptions} {s : FS} {n : Nat} :
    (∃ ev ∈ writeToSchemaEvents o s, stepOf ev = some n) ↔ o.writeToSchema = true ∧ n = 3 := by
  cases hc : o.writeToSchema <;>
    cases hs : s.schemaContent <;>
      simp [writeToSchemaEvents, stepOf, hc, hs, eq_comm]

lemma stepMem_formatSchemaEvents {o : ModuleOptions} {e : Env} {n : Nat} :
    (∃ ev ∈ formatSchemaEvents o e, stepOf ev = some n) ↔ o.formatSchema = true ∧ n = 4 := by
  cases hc : o.formatSchema <;>
    cases hf : e.cmdFails Cmd.prismaFormat <;>
      simp [formatSchemaEvents, stepOf, cmdStep, hc, hf, eq_comm]

lemma stepMem_runMigrationEvents {o : ModuleOptions} {e : Env} {n : Nat} :
    (∃ ev ∈ runMigrationEvents o e, stepOf ev = some n) ↔ o.runMigration = true ∧ n = 5 := by
  cases hc : o.runMigration <;>
    cases hf : e.cmdFails Cmd.prismaMigrateDev <;>
      simp [runMigrationEvents, stepOf, cmdStep, hc, hf, eq_comm]

lemma stepMem_generateClientEvents {o : ModuleOptions} {e : Env} {n : Nat} :
    (∃ ev ∈ generateClientEvents o e, stepOf ev = some n) ↔
      o.installClient = true ∧ o.generateClient = true ∧ n = 6 := by
  cases hc : o.installClient <;>
    cases hg : o.generateClient <;>
      cases hf : e.cmdFails Cmd.npmInstallClient <;>
        cases hf' : e.cmdFails Cmd.prismaGenerate <;>
          simp [generateClientEvents, stepOf, cmdStep, hc, hg, hf, hf', eq_comm]

lemma stepMem_installStudioEvents {o : ModuleOptions} {e : Env} {n : Nat} :
    (∃ ev ∈ installStudioEvents o e, stepOf ev = some n) ↔ o.installStudio = true ∧ n = 8 := by
  cases hc : o.installStudio <;>
    cases hf : e.cmdFails Cmd.prismaStudio <;>
      simp [installStudioEvents, stepOf, cmdStep, hc, hf, eq_comm]

lemma stepMem_writeClientPluginEvents {s : FS} {n : Nat} :
    (∃ ev ∈ writeClientPluginEvents s, stepOf ev = some n) ↔
      s.libPrismaExists = false ∧ n = 7 := by
  cases hl : s.libPrismaExists <;>
    cases hd : s.libDirExists <;>
      simp [writeClientPluginEvents, stepOf, hl, hd, eq_comm]

lemma stepOf_cmd (c : Cmd) : stepOf (Event.cmd c) = some (cmdStep c) := rfl

lemma stepOf_prompt (p : PromptName) : stepOf (Event.prompt p) = none := rfl

lemma stepOf_logSuccess (m : String) : stepOf (Event.logSuccess m) = none := rfl

lemma stepOf_logError (m : String) : stepOf (Event.logError m) = none := rfl

lemma stepOf_logInfo (m : String) : stepOf (Event.logInfo m) = none := rfl

lemma stepOf_registerTab (t : DevtoolsTab) : stepOf (Event.registerTab t) = some 8 := rfl

lemma stepMem_promptCliEvents {o : ModuleOptions} {e : Env} {n : Nat} :
    (∃ ev ∈ promptCliEvents o e, stepOf ev = some n) ↔
      (o.autoSetupPrisma = false ∨ o.installCli = true) ∧ n = 1 := by
  cases ha : o.autoSetupPrisma <;>
    cases hv : e.cmdFails Cmd.prismaVersion <;>
      cases hp : e.promptAnswer PromptName.installPrisma <;>
        simp [promptCliEvents, stepMem_installCliEvents, stepOf_cmd, stepOf_prompt,
          stepOf_logSuccess, stepOf_logError, stepOf_logInfo, cmdStep, ha, hv, hp,
          or_and_right, exists_or, exists_eq_left] <;>
          tauto

lemma stepMem_promptInitPrismaEvents {o : ModuleOptions} {e : Env} {s : FS} {n : Nat} :
    (∃ ev ∈ promptInitPrismaEvents o e s, stepOf ev = some n) ↔
      s.schemaExists = false ∧
        (o.autoSetupPrisma = true ∨ e.promptAnswer PromptName.initPrisma = true) ∧
        ((o.initPrisma = true ∧ n = 2) ∨ (o.writeToSchema = true ∧ n = 3) ∨
          (o.formatSchema = true ∧ n = 4)) := by
  cases hs : s.schemaExists <;>
    cases ha : o.autoSetupPrisma <;>
      cases hp : e.promptAnswer PromptName.initPrisma <;>
        simp [promptInitPrismaEvents, stepMem_initPrismaEvents, stepMem_writeToSchemaEvents,
          stepMem_formatSchemaEvents, stepOf_prompt, stepOf_logSuccess, stepOf_logInfo,
          hs, ha, hp, or_and_right, exists_or, exists_eq_left] <;>
          tauto

lemma stepMem_promptRunMigrationEvents {o : ModuleOptions} {e : Env} {n : Nat} :
    (∃ ev ∈ promptRunMigrationEvents o e, stepOf ev = some n) ↔
      (o.autoSetupPrisma = true ∨ e.promptAnswer PromptName.runMigration = true) ∧
        o.runMigration = true ∧ n = 5 := by
  cases ha : o.autoSetupPrisma <;>
    cases hp : e.promptAnswer PromptName.runMigration <;>
      simp [promptRunMigrationEvents, stepMem_runMigrationEvents, stepOf_prompt,
        stepOf_logInfo, ha, hp, or_and_right, exists_or, exists_eq_left] <;>
        tauto

lemma stepMem_promptGenerateClientEvents {o : ModuleOptions} {e : Env} {n : Nat} :
    (∃ ev ∈ promptGenerateClientEvents o e, stepOf ev = some n) ↔
      (o.autoSetupPrisma = true ∨ e.promptAnswer PromptName.generateClient = true) ∧
        o.installClient = true ∧ o.generateClient = true ∧ n = 6 := by
  cases ha : o.autoSetupPrisma <;>
    cases hp : e.promptAnswer PromptName.generateClient <;>
      simp [promptGenerateClientEvents, stepMem_generateClientEvents, stepOf_prompt,
        stepOf_logInfo, ha, hp, or_and_right, exists_or, exists_eq_left] <;>
        tauto

lemma stepMem_promptInstallStudioEvents {o : ModuleOptions} {e : Env} {n : Nat} :
    (∃ ev ∈ promptInstallStudioEvents o e, stepOf ev = some n) ↔
      (o.autoSetupPrisma = true ∨ e.promptAnswer PromptName.installStudio = true) ∧ n = 8 := by
  cases ha : o.autoSetupPrisma <;>
    cases hp : e.promptAnswer PromptName.installStudio <;>
      simp [promptInstallStudioEvents, stepMem_installStudioEvents, stepOf_prompt,
        stepOf_logInfo, stepOf_registerTab, ha, hp, or_and_right, exists_or,
        exists_eq_left] <;>
        tauto

/-- A step number is visible in the pipeline trace exactly under
`stepExecCond`. -/
lemma stepMem_events_iff {o : ModuleOptions} {e : Env} {s : FS} {n : Nat} :
    (∃ ev ∈ events o e s, stepOf ev = some n) ↔ stepExecCond o e s n := by
  have hlib := (promptInitPrismaFS_lib o e s).1
  cases hf : forceSkipPrismaSetup e <;>
    cases hk : o.skipInstallations <;>
      cases hl : lifecycleAllowsStudio e <;>
        simp [events_eq, setupEvents, mainPhaseEvents, stepExecCond,
          stepMem_promptCliEvents, stepMem_promptInitPrismaEvents,
          stepMem_promptRunMigrationEvents, stepMem_promptGenerateClientEvents,
          stepMem_promptInstallStudioEvents, stepMem_writeClientPluginEvents,
          stepOf_logInfo, stepOf_logError, hf, hk, hl, hlib, or_assoc,
          or_and_right, exists_or, exists_eq_left] <;>
          tauto

/-- Claim C1, counterexample: a configuration with `skipInstallations =
true` on which the pipeline still executes an external command — it
launches Prisma Studio, because the `promptInstallStudio` call sits
outside the `!options.skipInstallations` block. -/
theorem C1_counterexample :
    optsSkipAll.skipInstallations = true ∧
      Event.cmd Cmd.prismaStudio ∈ events optsSkipAll envAllOk fs0 :=
  ⟨rfl, by decide⟩

/-- Claim C1 (amended): with `skipInstallations = true` the pipeline
executes no external command other than (possibly) the Prisma Studio
launch: no CLI detection, install, init, format, migration or client
generation command ever runs. -/
theorem C1_skip_all_only_studio (o : ModuleOptions) (e : Env) (s : FS)
    (h : o.skipInstallations = true) :
    ∀ c : Cmd, Event.cmd c ∈ events o e s → c = Cmd.prismaStudio := by
  intro c hc
  simp [mem_events_iff, mem_promptInstallStudioEvents, mem_installStudioEvents, h] at hc
  tauto

/-- Witness for C1 at a concrete configuration. -/
theorem C1_skip_all_only_studio_witness :
    optsSkipAll.skipInstallations = true ∧
      ∀ c : Cmd, Event.cmd c ∈ events optsSkipAll envAllOk fs0 → c = Cmd.prismaStudio :=
  ⟨rfl, C1_skip_all_only_studio optsSkipAll envAllOk fs0 rfl⟩

/-- Claim C2, counterexample: a configuration with `autoSetupPrisma =
true` and `installCli = true` on which the CLI-install step does not run,
because `skipInstallations = true` suppresses it — so "every step whose
governing flag is enabled is executed" fails as stated. -/
theorem C2_counterexample :
    optsSkipAll.autoSetupPrisma = true ∧ optsSkipAll.installCli = true ∧
      Event.cmd Cmd.npmInstallPrismaDev ∉ events optsSkipAll envAllOk fs0 :=
  ⟨rfl, rfl, by decide⟩

/-- Claim C2 (amended): with `autoSetupPrisma = true` no interactive
prompt is ever issued; and provided the setup is not force-skipped,
`skipInstallations` is off, the schema file does not exist yet, and the
lifecycle event does not suppress the studio phase, every step whose
governing flag is enabled is executed. -/
theorem C2_auto_no_prompts_all_enabled_run (o : ModuleOptions) (e : Env) (s : FS)
    (h : o.autoSetupPrisma = true) :
    (∀ p : PromptName, Event.prompt p ∉ events o e s) ∧
      (forceSkipPrismaSetup e = false → o.skipInstallations = false →
        s.schemaExists = false → lifecycleAllowsStudio e = true →
        (o.installCli = true → Event.cmd Cmd.npmInstallPrismaDev ∈ events o e s) ∧
        (o.initPrisma = true → Event.cmd Cmd.prismaInit ∈ events o e s) ∧
        (o.writeToSchema = true →
          ∃ content, Event.writeFile "prisma/schema.prisma" content ∈ events o e s) ∧
        (o.formatSchema = true → Event.cmd Cmd.prismaFormat ∈ events o e s) ∧
        (o.runMigration = true → Event.cmd Cmd.prismaMigrateDev ∈ events o e s) ∧
        (o.installClient = true → o.generateClient = true →
          Event.cmd Cmd.npmInstallClient ∈ events o e s) ∧
        (o.installStudio = true → Event.cmd Cmd.prismaStudio ∈ events o e s)) := by
  constructor
  · intro p hp
    simp [mem_events_iff, mem_promptCliEvents, mem_promptInitPrismaEvents,
      mem_promptRunMigrationEvents, mem_promptGenerateClientEvents,
      mem_writeClientPluginEvents, mem_promptInstallStudioEvents,
      mem_installCliEvents, mem_initPrismaEvents, mem_writeToSchemaEvents,
      mem_formatSchemaEvents, mem_runMigrationEvents, mem_generateClientEvents,
      mem_installStudioEvents, h] at hp
  · intro hforce hskip hschema hlife
    refine ⟨?_, ?_, ?_, ?_, ?_, ?_, ?_⟩
    · intro hflag
      simp [mem_events_iff, mem_promptCliEvents, mem_installCliEvents,
        h, hforce, hskip, hflag]
    · intro hflag
      simp [mem_events_iff, mem_promptInitPrismaEvents, mem_initPrismaEvents,
        h, hforce, hskip, hschema, hflag]
    · intro hflag
      refine ⟨updatedSchema s.schemaContent, ?_⟩
      simp [mem_events_iff, mem_promptInitPrismaEvents, mem_writeToSchemaEvents,
        h, hforce, hskip, hschema, hflag]
    · intro hflag
      simp [mem_events_iff, mem_promptInitPrismaEvents, mem_formatSchemaEvents,
        h, hforce, hskip, hschema, hflag]
    · intro hflag
      simp [mem_events_iff, mem_promptRunMigrationEvents, mem_runMigrationEvents,
        h, hforce, hskip, hflag]
    · intro hflag hflag2
      simp [mem_events_iff, mem_promptGenerateClientEvents, mem_generateClientEvents,
        h, hforce, hskip, hflag, hflag2]
    · intro hflag
      simp [mem_events_iff, mem_promptInstallStudioEvents, mem_installStudioEvents,
        h, hforce, hlife, hflag]

/-- Witness for C2 at a concrete configuration: automatic mode on a
fresh project issues no prompt and runs all seven command-backed steps. -/
theorem C2_auto_no_prompts_all_enabled_run_witness :
    optsAuto.autoSetupPrisma = true ∧
      (∀ p : PromptName, Event.prompt p ∉ events optsAuto envAllOk fs0) ∧
      Event.cmd Cmd.npmInstallPrismaDev ∈ events optsAuto envAllOk fs0 ∧
      Event.cmd Cmd.prismaInit ∈ events optsAuto envAllOk fs0 ∧
      (∃ content, Event.writeFile "prisma/schema.prisma" content ∈ events optsAuto envAllOk fs0) ∧
      Event.cmd Cmd.prismaFormat ∈ events optsAuto envAllOk fs0 ∧
      Event.cmd Cmd.prismaMigrateDev ∈ events optsAuto envAllOk fs0 ∧
      Event.cmd Cmd.npmInstallClient ∈ events optsAuto envAllOk fs0 ∧
      Event.cmd Cmd.prismaStudio ∈ events optsAuto envAllOk fs0 := by
  have h := C2_auto_no_prompts_all_enabled_run optsAuto envAllOk fs0 rfl
  have h2 := h.2 (by decide) rfl rfl (by decide)
  exact ⟨rfl, h.1, h2.1 rfl, h2.2.1 rfl, h2.2.2.1 rfl, h2.2.2.2.1 rfl,
    h2.2.2.2.2.1 rfl, h2.2.2.2.2.2.1 rfl rfl, h2.2.2.2.2.2.2 rfl⟩

/-- Claim C3: when `lib/prisma.ts` already exists, a pipeline run leaves
its contents (and existence) unchanged and never writes to that path. -/
theorem C3_client_accessor_never_overwritten (o : ModuleOptions) (e : Env) (s : FS)
    (h : s.libPrismaExists = true) :
    (finalFS o e s).libPrismaContent = s.libPrismaContent ∧
      (finalFS o e s).libPrismaExists = true ∧
      ∀ content, Event.writeFile "lib/prisma.ts" content ∉ events o e s := by
  have hlib := promptInitPrismaFS_lib o e s
  refine ⟨?_, ?_, ?_⟩
  · rw [finalFS_eq]
    cases hf : forceSkipPrismaSetup e <;>
      cases hk : o.skipInstallations <;>
        simp [setupFS, writeClientPluginFS, hf, hk, hlib.1, hlib.2.1, h]
  · rw [finalFS_eq]
    cases hf : forceSkipPrismaSetup e <;>
      cases hk : o.skipInstallations <;>
        simp [setupFS, writeClientPluginFS, hf, hk, hlib.1, hlib.2.1, h]
  · intro content hc
    simp [mem_events_iff, mem_promptCliEvents, mem_promptInitPrismaEvents,
      mem_promptRunMigrationEvents, mem_promptGenerateClientEvents,
      mem_writeClientPluginEvents, mem_promptInstallStudioEvents,
      mem_installCliEvents, mem_initPrismaEvents, mem_writeToSchemaEvents,
      mem_formatSchemaEvents, mem_runMigrationEvents, mem_generateClientEvents,
      mem_installStudioEvents, hlib.1, h] at hc

/-- Witness for C3 at a concrete project state with an existing
accessor file. -/
theorem C3_client_accessor_never_overwritten_witness :
    fsLib.libPrismaExists = true ∧
      ((finalFS defaultOptions envAllOk fsLib).libPrismaContent = fsLib.libPrismaContent ∧
        (finalFS defaultOptions envAllOk fsLib).libPrismaExists = true ∧
        ∀ content, Event.writeFile "lib/prisma.ts" content ∉ events defaultOptions envAllOk fsLib) :=
  ⟨rfl, C3_client_accessor_never_overwritten defaultOptions envAllOk fsLib rfl⟩

/-- Claim C4: the pipeline always returns normally whatever commands
fail; every failing command that runs has its step-boundary error message
logged; and which steps execute is independent of which commands fail. -/
theorem C4_failures_caught_logged_pipeline_continues (o : ModuleOptions) (e : Env) (s : FS) :
    (runSetup o e s).result = Except.ok () ∧
      (∀ c : Cmd, e.cmdFails c = true → Event.cmd c ∈ events o e s →
        Event.logError (failMsg c) ∈ events o e s) ∧
      (∀ (g : Cmd → Bool) (n : Nat),
        (∃ ev ∈ events o e s, stepOf ev = some n) ↔
          (∃ ev ∈ events o { e with cmdFails := g } s, stepOf ev = some n)) := by
  refine ⟨runSetup_ok o e s, ?_, ?_⟩
  · intro c hfail hc
    cases c <;>
      simp [mem_events_iff, mem_promptCliEvents, mem_promptInitPrismaEvents,
        mem_promptRunMigrationEvents, mem_promptGenerateClientEvents,
        mem_writeClientPluginEvents, mem_promptInstallStudioEvents,
        mem_installCliEvents, mem_initPrismaEvents, mem_writeToSchemaEvents,
        mem_formatSchemaEvents, mem_runMigrationEvents, mem_generateClientEvents,
        mem_installStudioEvents, failMsg, hfail] at hc ⊢ <;>
        tauto
  · intro g n
    rw [stepMem_events_iff, stepMem_events_iff]
    rfl

/-- Witness for C4 at a concrete run in which every command fails. -/
theorem C4_failures_caught_logged_pipeline_continues_witness :
    (runSetup defaultOptions envAllFail fs0).result = Except.ok () ∧
      envAllFail.cmdFails Cmd.prismaVersion = true ∧
      Event.cmd Cmd.prismaVersion ∈ events defaultOptions envAllFail fs0 ∧
      Event.logError (failMsg Cmd.prismaVersion) ∈ events defaultOptions envAllFail fs0 ∧
      ((∃ ev ∈ events defaultOptions envAllFail fs0, stepOf ev = some 5) ↔
        (∃ ev ∈ events defaultOptions { envAllFail with cmdFails := fun _ => false } fs0,
          stepOf ev = some 5)) := by
  have h := C4_failures_caught_logged_pipeline_continues defaultOptions envAllFail fs0
  exact ⟨h.1, rfl, by decide, h.2.1 Cmd.prismaVersion rfl (by decide),
    h.2.2 (fun _ => false) 5⟩

/-- Claim C5: the step numbers of the externally visible actions of any
pipeline run appear in ascending order — no executed step precedes an
earlier-numbered one. -/
theorem C5_steps_execute_in_order (o : ModuleOptions) (e : Env) (s : FS) :
    ((events o e s).filterMap stepOf).Pairwise (· ≤ ·) := by
  have h := stepsIn_setupEvents o e s
  rw [events_eq]
  exact h.1

/-- Claim C6: every step function whose governing flag is false performs
no action at all: no event is emitted, the file system is untouched, and
it returns normally. -/
theorem C6_disabled_flag_disables_step (o : ModuleOptions) (e : Env) (s : FS) :
    (o.installCli = false → installCli o e s = ⟨s, [], Except.ok ()⟩) ∧
      (o.initPrisma = false → initPrisma o e s = ⟨s, [], Except.ok ()⟩) ∧
      (o.writeToSchema = false → writeToSchema o e s = ⟨s, [], Except.ok ()⟩) ∧
      (o.formatSchema = false → formatSchema o e s = ⟨s, [], Except.ok ()⟩) ∧
      (o.runMigration = false → runMigration o e s = ⟨s, [], Except.ok ()⟩) ∧
      (o.installClient = false → generateClient o e s = ⟨s, [], Except.ok ()⟩) ∧
      (o.generateClient = false → generateClient o e s = ⟨s, [], Except.ok ()⟩) ∧
      (o.installStudio = false → installStudio o e s = ⟨s, [], Except.ok ()⟩) := by
  refine ⟨?_, ?_, ?_, ?_, ?_, ?_, ?_, ?_⟩ <;> intro h
  · simp [installCli, h, M.pure]
  · simp [initPrisma, h, M.pure]
  · simp [writeToSchema, h, M.pure]
  · simp [formatSchema, h, M.pure]
  · simp [runMigration, h, M.pure]
  · simp [generateClient, h, M.pure]
  · simp [generateClient, h, M.pure]
  · simp [installStudio, h, M.pure]

/-- Witness for C6 at a configuration with every flag off. -/
theorem C6_disabled_flag_disables_step_witness :
    installCli optsAllOff envAllOk fs0 = ⟨fs0, [], Except.ok ()⟩ ∧
      initPrisma optsAllOff envAllOk fs0 = ⟨fs0, [], Except.ok ()⟩ ∧
      writeToSchema optsAllOff envAllOk fs0 = ⟨fs0, [], Except.ok ()⟩ ∧
      formatSchema optsAllOff envAllOk fs0 = ⟨fs0, [], Except.ok ()⟩ ∧
      runMigration optsAllOff envAllOk fs0 = ⟨fs0, [], Except.ok ()⟩ ∧
      generateClient optsAllOff envAllOk fs0 = ⟨fs0, [], Except.ok ()⟩ ∧
      installStudio optsAllOff envAllOk fs0 = ⟨fs0, [], Except.ok ()⟩ := by
  have h := C6_disabled_flag_disables_step optsAllOff envAllOk fs0
  exact ⟨h.1 rfl, h.2.1 rfl, h.2.2.1 rfl, h.2.2.2.1 rfl, h.2.2.2.2.1 rfl,
    h.2.2.2.2.2.1 rfl, h.2.2.2.2.2.2.2 rfl⟩

/-- Claim C7: with `writeToSchema = true` the write-schema step replaces
the schema file with the trimmed previous content (empty when the read
fails), a blank-line separator, and the fixed model fragment — and
returns normally. -/
theorem C7_write_schema_appends_fragment (o : ModuleOptions) (e : Env) (s : FS)
    (h : o.writeToSchema = true) :
    (writeToSchema o e s).fs.schemaContent =
        some ((s.schemaContent.getD "").trim ++ "\n\n" ++ addModel) ∧
      (writeToSchema o e s).fs.schemaExists = true ∧
      (writeToSchema o e s).result = Except.ok () := by
  rw [writeToSchema_run]
  cases hs : s.schemaContent <;>
    simp [writeToSchemaFS, updatedSchema, h, hs]

/-- Witness for C7 at a concrete file system with existing schema text. -/
theorem C7_write_schema_appends_fragment_witness :
    defaultOptions.writeToSchema = true ∧
      ((writeToSchema defaultOptions envAllOk fsLib).fs.schemaContent =
          some ((fsLib.schemaContent.getD "").trim ++ "\n\n" ++ addModel) ∧
        (writeToSchema defaultOptions envAllOk fsLib).fs.schemaExists = true ∧
        (writeToSchema defaultOptions envAllOk fsLib).result = Except.ok ()) :=
  ⟨rfl, C7_write_schema_appends_fragment defaultOptions envAllOk fsLib rfl⟩

/-- Claim C8, counterexample: in automatic mode with the CLI already
installed (no command fails), the pipeline runs the CLI-install command
without ever running the detection command — so neither "first detects"
nor "no install when already installed" holds as stated. -/
theorem C8_counterexample :
    optsAuto.autoSetupPrisma = true ∧
      Event.cmd Cmd.npmInstallPrismaDev ∈ events optsAuto envAllOk fs0 ∧
      Event.cmd Cmd.prismaVersion ∉ events optsAuto envAllOk fs0 :=
  ⟨rfl, by decide, by decide⟩

/-- Claim C8 (amended): on non-automatic runs that are not skipped, the
first external command of the pipeline is the CLI detection; the install
command runs only when detection failed, the user confirmed, and
`installCli` is on; in particular no install command runs when the CLI is
already installed. -/
theorem C8_cli_detect_before_install (o : ModuleOptions) (e : Env) (s : FS)
    (hauto : o.autoSetupPrisma = false) (hforce : forceSkipPrismaSetup e = false)
    (hskip : o.skipInstallations = false) :
    Event.cmd Cmd.prismaVersion ∈ events o e s ∧
      ((events o e s).filterMap cmdOf).head? = some Cmd.prismaVersion ∧
      (Event.cmd Cmd.npmInstallPrismaDev ∈ events o e s →
        e.cmdFails Cmd.prismaVersion = true ∧
          e.promptAnswer PromptName.installPrisma = true ∧ o.installCli = true) ∧
      (e.cmdFails Cmd.prismaVersion = false →
        Event.cmd Cmd.npmInstallPrismaDev ∉ events o e s) := by
  refine ⟨?_, ?_, ?_, ?_⟩
  · simp [mem_events_iff, mem_promptCliEvents, hauto, hforce, hskip]
  · rw [events_eq]
    simp [setupEvents, mainPhaseEvents, promptCliEvents, cmdOf, hauto, hforce, hskip]
  · intro hc
    simp [mem_events_iff, mem_promptCliEvents, mem_promptInitPrismaEvents,
      mem_promptRunMigrationEvents, mem_promptGenerateClientEvents,
      mem_writeClientPluginEvents, mem_promptInstallStudioEvents,
      mem_installCliEvents, mem_initPrismaEvents, mem_writeToSchemaEvents,
      mem_formatSchemaEvents, mem_runMigrationEvents, mem_generateClientEvents,
      mem_installStudioEvents, hauto, hforce, hskip] at hc
    tauto
  · intro hok hc
    simp [mem_events_iff, mem_promptCliEvents, mem_promptInitPrismaEvents,
      mem_promptRunMigrationEvents, mem_promptGenerateClientEvents,
      mem_writeClientPluginEvents, mem_promptInstallStudioEvents,
      mem_installCliEvents, mem_initPrismaEvents, mem_writeToSchemaEvents,
      mem_formatSchemaEvents, mem_runMigrationEvents, mem_generateClientEvents,
      mem_installStudioEvents, hauto, hforce, hskip, hok] at hc

/-- Witness for C8 at a concrete non-automatic run with the CLI absent. -/
theorem C8_cli_detect_before_install_witness :
    (defaultOptions.autoSetupPrisma = false ∧
        forceSkipPrismaSetup envAllFail = false ∧
        defaultOptions.skipInstallations = false) ∧
      (Event.cmd Cmd.prismaVersion ∈ events defaultOptions envAllFail fs0 ∧
        ((events defaultOptions envAllFail fs0).filterMap cmdOf).head? =
          some Cmd.prismaVersion ∧
        (Event.cmd Cmd.npmInstallPrismaDev ∈ events defaultOptions envAllFail fs0 →
          envAllFail.cmdFails Cmd.prismaVersion = true ∧
            envAllFail.promptAnswer PromptName.installPrisma = true ∧
            defaultOptions.installCli = true) ∧
        (envAllFail.cmdFails Cmd.prismaVersion = false →
          Event.cmd Cmd.npmInstallPrismaDev ∉ events defaultOptions envAllFail fs0)) :=
  ⟨⟨rfl, by decide, rfl⟩,
    C8_cli_detect_before_install defaultOptions envAllFail fs0 rfl (by decide) rfl⟩

/-- Claim C9: every devtools tab the pipeline registers has the iframe
source URL exactly `http://localhost:5555/`. -/
theorem C9_studio_tab_url (o : ModuleOptions) (e : Env) (s : FS) :
    ∀ tab : DevtoolsTab, Event.registerTab tab ∈ events o e s →
      tab.src = "http://localhost:5555/" := by
  intro tab htab
  simp [mem_events_iff, mem_promptCliEvents, mem_promptInitPrismaEvents,
    mem_promptRunMigrationEvents, mem_promptGenerateClientEvents,
    mem_writeClientPluginEvents, mem_promptInstallStudioEvents,
    mem_installCliEvents, mem_initPrismaEvents, mem_writeToSchemaEvents,
    mem_formatSchemaEvents, mem_runMigrationEvents, mem_generateClientEvents,
    mem_installStudioEvents] at htab
  have : tab = prismaStudioTab := by tauto
  subst this
  rfl

/-- Witness for C9 at a concrete run that registers the tab. -/
theorem C9_studio_tab_url_witness :
    Event.registerTab prismaStudioTab ∈ events optsAuto envAllOk fs0 ∧
      prismaStudioTab.src = "http://localhost:5555/" :=
  ⟨by decide, C9_studio_tab_url optsAuto envAllOk fs0 prismaStudioTab (by decide)⟩

/-- Claim C10: the client-install and client-generate commands run only
when both `installClient` and `generateClient` are true, and either flag
being false makes the whole generate-client step a no-op. -/
theorem C10_client_step_needs_both_flags (o : ModuleOptions) (e : Env) (s : FS) :
    ((Event.cmd Cmd.npmInstallClient ∈ events o e s ∨
        Event.cmd Cmd.prismaGenerate ∈ events o e s) →
      o.installClient = true ∧ o.generateClient = true) ∧
      ((o.installClient = false ∨ o.generateClient = false) →
        generateClient o e s = ⟨s, [], Except.ok ()⟩) := by
  constructor
  · intro h
    rcases h with h | h <;>
      · simp [mem_events_iff, mem_promptCliEvents, mem_promptInitPrismaEvents,
          mem_promptRunMigrationEvents, mem_promptGenerateClientEvents,
          mem_writeClientPluginEvents, mem_promptInstallStudioEvents,
          mem_installCliEvents, mem_initPrismaEvents, mem_writeToSchemaEvents,
          mem_formatSchemaEvents, mem_runMigrationEvents, mem_generateClientEvents,
          mem_installStudioEvents] at h
        tauto
  · intro h
    rcases h with h | h <;> simp [generateClient, h, M.pure]

/-- Witness for C10: the client commands run under the default
configuration, and disabling `installClient` makes the step a no-op. -/
theorem C10_client_step_needs_both_flags_witness :
    defaultOptions.installClient = true ∧ defaultOptions.generateClient = true ∧
      generateClient { defaultOptions with installClient := false } envAllOk fs0 =
        ⟨fs0, [], Except.ok ()⟩ := by
  refine ⟨?_, ?_, ?_⟩
  · exact ((C10_client_step_needs_both_flags defaultOptions envAllOk fs0).1
      (Or.inl (by decide))).1
  · exact ((C10_client_step_needs_both_flags defaultOptions envAllOk fs0).1
      (Or.inl (by decide))).2
  · exact (C10_client_step_needs_both_flags
      { defaultOptions with installClient := false } envAllOk fs0).2 (Or.inl rfl)

end NuxtPrisma

